import Mathlib

/-!
Verification of the `hey-folio/agents` repository: a shallow embedding of its
task tools (`src/tools/taskTools.ts`), the Convex HTTP client
(`src/lib/models.ts` / `convex.ts`), and the supervisor `manage_tasks`
aggregation logic, together with theorems settling the specification claims.

Conventions of the embedding:
* JavaScript values that flow through `JSON.stringify` / `JSON.parse` are
  modelled by the inductive `Json` below; returning a stringified object is
  modelled by returning the `Json` value itself (`ToolOutput.json`).
* `async` calls to the remote Convex backend are modelled by a pure oracle
  (`Convex`); a rejected promise is an `Except.error` carrying the thrown
  value.  Each tool additionally returns the list of backend calls it issued,
  so that "does not invoke the backend" is expressible.
* JavaScript truthiness on `string | undefined` values is modelled by
  `jsFalsy` (undefined and the empty string are falsy).
-/

namespace Agents

/-- JSON values (JS objects/arrays/primitives).  Numbers are modelled as
integers, which covers every numeric literal this repository produces. -/
inductive Json where
  | null : Json
  | bool (b : Bool) : Json
  | num (n : Int) : Json
  | str (s : String) : Json
  | arr (elems : List Json) : Json
  | obj (fields : List (String × Json)) : Json
deriving Repr, BEq

/-- First-key lookup in an object's field list (objects built by this
repository never repeat a key). -/
def Json.lookupField : List (String × Json) → String → Option Json
  | [], _ => none
  | (k, v) :: rest, key => if k = key then some v else Json.lookupField rest key

/-- JS property access `j[key]`: `some` the value for an object that has the
key, `none` (undefined) otherwise. -/
def Json.getProp : Json → String → Option Json
  | .obj fields, key => Json.lookupField fields key
  | _, _ => none

/-- JS truthiness of a JSON value. -/
def jsTruthy : Json → Bool
  | .null => false
  | .bool b => b
  | .num n => n != 0
  | .str s => !s.isEmpty
  | .arr _ => true
  | .obj _ => true

/-- `typeof v === "object"` for a JSON value (true for objects, arrays and
`null`). -/
def jsTypeofObject : Json → Bool
  | .null => true
  | .arr _ => true
  | .obj _ => true
  | _ => false

/-- Escape one character for a JSON string literal (the common escapes;
other control characters do not occur in this repository's data). -/
def Json.escapeChar (c : Char) : String :=
  if c = '"' then "\\\""
  else if c = '\\' then "\\\\"
  else if c = '\n' then "\\n"
  else if c = '\t' then "\\t"
  else if c = '\r' then "\\r"
  else String.singleton c

/-- Render a string as a JSON string literal. -/
def Json.renderString (s : String) : String :=
  "\"" ++ String.join (s.data.map Json.escapeChar) ++ "\""

mutual

/-- `JSON.stringify` for the `Json` model. -/
def Json.render : Json → String
  | .null => "null"
  | .bool b => cond b "true" "false"
  | .num n => toString n
  | .str s => Json.renderString s
  | .arr xs => "[" ++ Json.renderArr xs ++ "]"
  | .obj fs => "\x7b" ++ Json.renderObj fs ++ "\x7d"

def Json.renderArr : List Json → String
  | [] => ""
  | [x] => Json.render x
  | x :: xs => Json.render x ++ "," ++ Json.renderArr xs

def Json.renderObj : List (String × Json) → String
  | [] => ""
  | [(k, v)] => Json.renderString k ++ ":" ++ Json.render v
  | (k, v) :: fs => Json.renderString k ++ ":" ++ Json.render v ++ "," ++ Json.renderObj fs

end

mutual

/-- JS string coercion (template-literal interpolation) of a JSON value. -/
def jsToDisplay : Json → String
  | .null => "null"
  | .bool b => cond b "true" "false"
  | .num n => toString n
  | .str s => s
  | .arr xs => jsListDisplay xs
  | .obj _ => "[object Object]"

/-- JS `Array.prototype.toString`: elements joined by commas, `null`
rendering as the empty string. -/
def jsListDisplay : List Json → String
  | [] => ""
  | [.null] => ""
  | [x] => jsToDisplay x
  | .null :: xs => "," ++ jsListDisplay xs
  | x :: xs => jsToDisplay x ++ "," ++ jsListDisplay xs

end

/-- Interpolating a possibly-undefined value into a template literal. -/
def jsTemplate : Option Json → String
  | none => "undefined"
  | some j => jsToDisplay j

/-- JS falsiness of a `string | undefined` value: `undefined` and `""` are
falsy. -/
def jsFalsy : Option String → Bool
  | none => true
  | some s => s.isEmpty

/-- JS `v || d` on a `string | undefined` value `v` with string default `d`. -/
def jsOrStr (v : Option String) (d : String) : String :=
  match v with
  | none => d
  | some s => if s.isEmpty then d else s

/-- Task as returned by Convex (`interface Task` in `src/lib/convex.ts` /
`models.ts`); optional fields are `Option`s and are omitted by
`JSON.stringify` when absent. -/
structure Task where
  _id : String
  _creationTime : Int
  tenantId : String
  title : String
  description : Option String
  status : String
  label : String
  priority : String
  createdBy : Option String
  createdAt : Option Int
  updatedAt : Option Int
deriving Repr, BEq

/-- A present-or-omitted string field of a JSON object. -/
def optStrField (k : String) : Option String → List (String × Json)
  | none => []
  | some s => [(k, Json.str s)]

/-- A present-or-omitted numeric field of a JSON object. -/
def optNumField (k : String) : Option Int → List (String × Json)
  | none => []
  | some n => [(k, Json.num n)]

/-- A `Task` as a JSON value (field order follows the interface). -/
def taskToJson (t : Task) : Json :=
  Json.obj
    ([("_id", Json.str t._id), ("_creationTime", Json.num t._creationTime),
      ("tenantId", Json.str t.tenantId), ("title", Json.str t.title)]
      ++ optStrField "description" t.description
      ++ [("status", Json.str t.status), ("label", Json.str t.label),
          ("priority", Json.str t.priority)]
      ++ optStrField "createdBy" t.createdBy
      ++ optNumField "createdAt" t.createdAt
      ++ optNumField "updatedAt" t.updatedAt)

/-! ## Runtime context (`src/context.ts`, `getContextFromRuntime`) -/

/-- The tenant scope extracted from the runtime (`AgentContext` as used by the
task tools: `{ tenantId, userId }`). -/
structure AgentContext where
  tenantId : String
  userId : String
deriving Repr, BEq

/-- `runtime.config.configurable` viewed through the casts in
`getContextFromRuntime`: each key is a `string | undefined`. -/
structure Configurable where
  tenantId : Option String
  userId : Option String
  personId : Option String
deriving Repr, BEq

/-- `runtime.config` (only the `configurable` member is read). -/
structure RuntimeConfig where
  configurable : Option Configurable
deriving Repr, BEq

/-- The `ToolRuntime` argument (tools receive `runtime?`, so the whole thing
is optional, as is its `config`). -/
structure AgentToolRuntime where
  config : Option RuntimeConfig
deriving Repr, BEq

/-- `runtime?.config?.configurable` (optional chaining). -/
def runtimeConfigurable (runtime : Option AgentToolRuntime) : Option Configurable :=
  (runtime.bind AgentToolRuntime.config).bind RuntimeConfig.configurable

/-- `getContextFromRuntime` from `src/tools/taskTools.ts`:
returns `null` when `!tenantId || !userId` (so `undefined` and the empty
string are both rejected), otherwise `{ tenantId, userId }`. -/
def getContextFromRuntime (runtime : Option AgentToolRuntime) : Option AgentContext :=
  let configurable := runtimeConfigurable runtime
  let tenantId := configurable.bind Configurable.tenantId
  let userId := configurable.bind Configurable.userId
  if jsFalsy tenantId || jsFalsy userId then none
  else some { tenantId := tenantId.getD "", userId := userId.getD "" }

/-! ## Convex backend oracle (`src/lib/convex.ts` helper signatures) -/

/-- A thrown JS value: either an `Error` carrying a message, or some
non-`Error` value. -/
inductive Thrown where
  | err (message : String) : Thrown
  | other : Thrown
deriving Repr, BEq

/-- `error instanceof Error ? error.message : "Unknown error"`. -/
def thrownMsg : Thrown → String
  | .err m => m
  | .other => "Unknown error"

structure AgentTaskListArgs where
  tenantId : String
  userId : String
deriving Repr, BEq

structure AgentTaskGetArgs where
  tenantId : String
  userId : String
  id : String
deriving Repr, BEq

structure AgentTaskCreateArgs where
  tenantId : String
  userId : String
  title : String
  description : Option String
  status : String
  label : String
  priority : String
deriving Repr, BEq

structure AgentTaskUpdateArgs where
  tenantId : String
  userId : String
  id : String
  title : Option String
  description : Option String
  status : Option String
  label : Option String
  priority : Option String
deriving Repr, BEq

structure AgentTaskRemoveArgs where
  tenantId : String
  userId : String
  id : String
deriving Repr, BEq

structure AgentTaskSearchArgs where
  tenantId : String
  userId : String
  query : String
deriving Repr, BEq

/-- Oracle for the six Convex helper functions; an `Except.error` models a
rejected promise (the backend call throwing). -/
structure Convex where
  list : AgentTaskListArgs → Except Thrown (List Task)
  get : AgentTaskGetArgs → Except Thrown (Option Task)
  create : AgentTaskCreateArgs → Except Thrown String
  update : AgentTaskUpdateArgs → Except Thrown Unit
  remove : AgentTaskRemoveArgs → Except Thrown Unit
  search : AgentTaskSearchArgs → Except Thrown (List Task)

/-- A record of one backend invocation (used to state which calls a tool
issued). -/
inductive ConvexCall where
  | list (args : AgentTaskListArgs)
  | get (args : AgentTaskGetArgs)
  | create (args : AgentTaskCreateArgs)
  | update (args : AgentTaskUpdateArgs)
  | remove (args : AgentTaskRemoveArgs)
  | search (args : AgentTaskSearchArgs)
deriving Repr, BEq

/-- A tool's return value: either a plain status string, or a JSON value the
tool returned as `JSON.stringify(...)`. -/
inductive ToolOutput where
  | plain (s : String) : ToolOutput
  | json (o : Json) : ToolOutput
deriving Repr, BEq

/-- The context-missing error message shared by all task tools. -/
def ctxErrorMsg : String :=
  "Error: Agent context not configured. Ensure tenantId and userId are passed in context."

/-! ## Task tools (`src/tools/taskTools.ts`) -/

/-- Tool input for `get_task`. -/
structure GetTaskInput where
  id : String
deriving Repr, BEq

/-- Tool input for `search_tasks`. -/
structure SearchTasksInput where
  query : String
deriving Repr, BEq

/-- Tool input for `create_task` / `propose_task` (`createTaskSchema`). -/
structure CreateTaskInput where
  title : String
  description : Option String
  status : Option String
  label : Option String
  priority : Option String
deriving Repr, BEq

/-- Tool input for `update_task` / `propose_task_update` (`updateTaskSchema`). -/
structure UpdateTaskInput where
  id : String
  title : Option String
  description : Option String
  status : Option String
  label : Option String
  priority : Option String
deriving Repr, BEq

/-- Tool input for `delete_task` / `propose_task_delete` (`deleteTaskSchema`). -/
structure DeleteTaskInput where
  id : String
deriving Repr, BEq

/-- `list_tasks`: lists all tasks for the tenant; returns a TaskTable
envelope (or a plain string when the list is empty / on error). -/
def listTasks (runtime : Option AgentToolRuntime) (cvx : Convex) :
    ToolOutput × List ConvexCall :=
  match getContextFromRuntime runtime with
  | none => (.plain ctxErrorMsg, [])
  | some ctx =>
    let args : AgentTaskListArgs := { tenantId := ctx.tenantId, userId := ctx.userId }
    match cvx.list args with
    | .error e => (.plain ("Error listing tasks: " ++ thrownMsg e), [.list args])
    | .ok tasks =>
      if tasks.length = 0 then
        (.plain "No tasks found. The task list is empty.", [.list args])
      else
        (.json (Json.obj
          [("text", Json.str ("Found " ++ toString tasks.length ++ " task(s).")),
           ("__ui__", Json.obj
             [("name", Json.str "TaskTable"),
              ("props", Json.obj [("tasks", Json.arr (tasks.map taskToJson))])])]),
         [.list args])

/-- `get_task`: fetches one task by id; returns a TaskCard envelope. -/
def getTask (input : GetTaskInput) (runtime : Option AgentToolRuntime) (cvx : Convex) :
    ToolOutput × List ConvexCall :=
  match getContextFromRuntime runtime with
  | none => (.plain ctxErrorMsg, [])
  | some ctx =>
    let args : AgentTaskGetArgs :=
      { tenantId := ctx.tenantId, userId := ctx.userId, id := input.id }
    match cvx.get args with
    | .error e => (.plain ("Error getting task: " ++ thrownMsg e), [.get args])
    | .ok none => (.plain ("Task not found with ID: " ++ input.id), [.get args])
    | .ok (some task) =>
      (.json (Json.obj
        [("text", Json.str ("Task \"" ++ task.title ++ "\" details.")),
         ("__ui__", Json.obj
           [("name", Json.str "TaskCard"),
            ("props", Json.obj [("task", taskToJson task)])])]),
       [.get args])

/-- `search_tasks`: full-text search by title; TaskCard on a unique match,
TaskTable on several, a plain string on none. -/
def searchTasks (input : SearchTasksInput) (runtime : Option AgentToolRuntime)
    (cvx : Convex) : ToolOutput × List ConvexCall :=
  match getContextFromRuntime runtime with
  | none => (.plain ctxErrorMsg, [])
  | some ctx =>
    let args : AgentTaskSearchArgs :=
      { tenantId := ctx.tenantId, userId := ctx.userId, query := input.query }
    match cvx.search args with
    | .error e => (.plain ("Error searching tasks: " ++ thrownMsg e), [.search args])
    | .ok tasks =>
      match tasks with
      | [] =>
        (.plain ("No tasks found matching \"" ++ input.query ++ "\"."), [.search args])
      | [t] =>
        (.json (Json.obj
          [("text", Json.str ("Found task \"" ++ t.title ++ "\".")),
           ("__ui__", Json.obj
             [("name", Json.str "TaskCard"),
              ("props", Json.obj [("task", taskToJson t)])])]),
         [.search args])
      | _ =>
        (.json (Json.obj
          [("text", Json.str ("Found " ++ toString tasks.length ++ " tasks matching \""
              ++ input.query ++ "\".")),
           ("__ui__", Json.obj
             [("name", Json.str "TaskTable"),
              ("props", Json.obj [("tasks", Json.arr (tasks.map taskToJson))])])]),
         [.search args])

/-- The argument object `create_task` forwards to `convexCreateTask`
(`src/tools/taskTools.ts` lines 215-223): note `status || "todo"`. -/
def createTaskSentArgs (ctx : AgentContext) (input : CreateTaskInput) :
    AgentTaskCreateArgs :=
  { tenantId := ctx.tenantId, userId := ctx.userId, title := input.title,
    description := input.description,
    status := jsOrStr input.status "todo",
    label := jsOrStr input.label "feature",
    priority := jsOrStr input.priority "medium" }

/-- The argument object the earlier variant's `createTask`
(`src/unnamed/part_001` lines 134-142) forwards: `status || "backlog"`. -/
def createTaskSentArgsV1 (ctx : AgentContext) (input : CreateTaskInput) :
    AgentTaskCreateArgs :=
  { tenantId := ctx.tenantId, userId := ctx.userId, title := input.title,
    description := input.description,
    status := jsOrStr input.status "backlog",
    label := jsOrStr input.label "feature",
    priority := jsOrStr input.priority "medium" }

/-- `create_task`: creates a task and returns a TaskCard envelope echoing the
created values. -/
def createTask (input : CreateTaskInput) (runtime : Option AgentToolRuntime)
    (cvx : Convex) : ToolOutput × List ConvexCall :=
  match getContextFromRuntime runtime with
  | none => (.plain ctxErrorMsg, [])
  | some ctx =>
    let args := createTaskSentArgs ctx input
    match cvx.create args with
    | .error e => (.plain ("Error creating task: " ++ thrownMsg e), [.create args])
    | .ok taskId =>
      (.json (Json.obj
        [("text", Json.str ("Task \"" ++ input.title ++ "\" created successfully.")),
         ("__ui__", Json.obj
           [("name", Json.str "TaskCard"),
            ("props", Json.obj
              [("task", Json.obj
                 [("_id", Json.str taskId),
                  ("title", Json.str input.title),
                  ("description", Json.str (jsOrStr input.description "")),
                  ("status", Json.str (jsOrStr input.status "todo")),
                  ("label", Json.str (jsOrStr input.label "feature")),
                  ("priority", Json.str (jsOrStr input.priority "medium"))]),
               ("isSaved", Json.bool true)])])]),
       [.create args])

/-- `if (x) updates.push(...)` for an optional string field. -/
def updateLine (v : Option String) (mk : String → String) : List String :=
  match v with
  | none => []
  | some s => if s.isEmpty then [] else [mk s]

/-- `update_task`: updates a task and reports the changed fields as a plain
string. -/
def updateTask (input : UpdateTaskInput) (runtime : Option AgentToolRuntime)
    (cvx : Convex) : ToolOutput × List ConvexCall :=
  match getContextFromRuntime runtime with
  | none => (.plain ctxErrorMsg, [])
  | some ctx =>
    let args : AgentTaskUpdateArgs :=
      { tenantId := ctx.tenantId, userId := ctx.userId, id := input.id,
        title := input.title, description := input.description,
        status := input.status, label := input.label, priority := input.priority }
    match cvx.update args with
    | .error e => (.plain ("Error updating task: " ++ thrownMsg e), [.update args])
    | .ok _ =>
      let updates : List String :=
        updateLine input.title (fun t => "Title: " ++ t)
          ++ updateLine input.description (fun d => "Description: " ++ d)
          ++ updateLine input.status (fun s => "Status: " ++ s)
          ++ updateLine input.label (fun l => "Label: " ++ l)
          ++ updateLine input.priority (fun p => "Priority: " ++ p)
      (.plain ("Task " ++ input.id ++ " updated successfully!\nUpdated fields:\n- "
          ++ String.intercalate "\n- " updates),
       [.update args])

/-- `delete_task`: removes a task. -/
def deleteTask (input : DeleteTaskInput) (runtime : Option AgentToolRuntime)
    (cvx : Convex) : ToolOutput × List ConvexCall :=
  match getContextFromRuntime runtime with
  | none => (.plain ctxErrorMsg, [])
  | some ctx =>
    let args : AgentTaskRemoveArgs :=
      { tenantId := ctx.tenantId, userId := ctx.userId, id := input.id }
    match cvx.remove args with
    | .error e => (.plain ("Error deleting task: " ++ thrownMsg e), [.remove args])
    | .ok _ => (.plain ("Task " ++ input.id ++ " deleted successfully."), [.remove args])

/-- `propose_task`: emits a TaskEditForm instead of creating; `formId` stands
for the `crypto.randomUUID()` result.  Makes no backend call. -/
def proposeTask (input : CreateTaskInput) (formId : String)
    (runtime : Option AgentToolRuntime) : ToolOutput × List ConvexCall :=
  match getContextFromRuntime runtime with
  | none => (.plain ctxErrorMsg, [])
  | some _ =>
    (.json (Json.obj
      [("text", Json.str ("Ready to create task \"" ++ input.title ++ "\".")),
       ("__ui__", Json.obj
         [("name", Json.str "TaskEditForm"),
          ("props", Json.obj
            [("formId", Json.str formId),
             ("mode", Json.str "create"),
             ("initialValues", Json.obj
               [("title", Json.str input.title),
                ("description", Json.str (jsOrStr input.description "")),
                ("status", Json.str (jsOrStr input.status "todo")),
                ("label", Json.str (jsOrStr input.label "feature")),
                ("priority", Json.str (jsOrStr input.priority "medium"))])])])]),
     [])

/-- `propose_task_update`: fetches the current task and emits a pre-filled
TaskEditForm (`??` merging of proposed and current values). -/
def proposeTaskUpdate (input : UpdateTaskInput) (formId : String)
    (runtime : Option AgentToolRuntime) (cvx : Convex) :
    ToolOutput × List ConvexCall :=
  match getContextFromRuntime runtime with
  | none => (.plain ctxErrorMsg, [])
  | some ctx =>
    let args : AgentTaskGetArgs :=
      { tenantId := ctx.tenantId, userId := ctx.userId, id := input.id }
    match cvx.get args with
    | .error e => (.plain ("Error getting task for update: " ++ thrownMsg e), [.get args])
    | .ok none => (.plain ("Task not found with ID: " ++ input.id), [.get args])
    | .ok (some task) =>
      (.json (Json.obj
        [("text", Json.str ("Ready to update task \"" ++ task.title ++ "\".")),
         ("__ui__", Json.obj
           [("name", Json.str "TaskEditForm"),
            ("props", Json.obj
              [("formId", Json.str formId),
               ("mode", Json.str "edit"),
               ("taskId", Json.str input.id),
               ("initialValues", Json.obj
                 [("title", Json.str (input.title.getD task.title)),
                  ("description",
                   Json.str (input.description.getD (task.description.getD ""))),
                  ("status", Json.str (input.status.getD task.status)),
                  ("label", Json.str (input.label.getD task.label)),
                  ("priority", Json.str (input.priority.getD task.priority))])])])]),
       [.get args])

/-- `propose_task_delete`: fetches the task and emits a TaskDeleteConfirm. -/
def proposeTaskDelete (input : DeleteTaskInput) (formId : String)
    (runtime : Option AgentToolRuntime) (cvx : Convex) :
    ToolOutput × List ConvexCall :=
  match getContextFromRuntime runtime with
  | none => (.plain ctxErrorMsg, [])
  | some ctx =>
    let args : AgentTaskGetArgs :=
      { tenantId := ctx.tenantId, userId := ctx.userId, id := input.id }
    match cvx.get args with
    | .error e =>
      (.plain ("Error getting task for deletion: " ++ thrownMsg e), [.get args])
    | .ok none => (.plain ("Task not found with ID: " ++ input.id), [.get args])
    | .ok (some task) =>
      (.json (Json.obj
        [("text", Json.str ("Confirm deletion of \"" ++ task.title ++ "\".")),
         ("__ui__", Json.obj
           [("name", Json.str "TaskDeleteConfirm"),
            ("props", Json.obj
              [("formId", Json.str formId),
               ("taskId", Json.str input.id),
               ("taskTitle", Json.str task.title)])])]),
       [.get args])

/-! ## Sub-agent transcripts and the supervisor `manage_tasks` tool
(`src/unnamed/part_002` lines 77-221, `src/unnamed/part_004` lines 131-276) -/

/-- One entry of `AIMessage.tool_calls`. -/
structure ToolCall where
  name : String
  args : Json
  id : Option String
deriving Repr, BEq

/-- A JS message `content` value, abstracted by how `JSON.parse` and
`JSON.stringify` treat it:
* `str raw parsed` is string content `raw`; `parsed` records the result of
  `JSON.parse raw` (`none` when the parse throws);
* `complex j` is non-string structured content, which `JSON.stringify` turns
  into a string that parses back to `j`. -/
inductive MsgContent where
  | str (raw : String) (parsed : Option Json) : MsgContent
  | complex (j : Json) : MsgContent
deriving Repr, BEq

/-- `typeof content === "string" ? content : JSON.stringify(content)`. -/
def contentToString : MsgContent → String
  | .str raw _ => raw
  | .complex j => Json.render j

/-- The result of `JSON.parse` applied to the string form of a content value
(`none` models the parse throwing). -/
def contentParsed : MsgContent → Option Json
  | .str _ parsed => parsed
  | .complex j => some j

/-- The LangChain message classes that `extractSubagentMessages`
distinguishes (`instanceof AIMessage` / `instanceof ToolMessage`): human
messages, AI messages with their tool calls, tool messages with a name,
content and `tool_call_id`. -/
inductive BaseMessage where
  | human (content : MsgContent) : BaseMessage
  | ai (content : MsgContent) (tool_calls : List ToolCall) : BaseMessage
  | toolMsg (name : Option String) (content : MsgContent) (tool_call_id : String) : BaseMessage
deriving Repr, BEq

/-- The content of a message. -/
def BaseMessage.content : BaseMessage → MsgContent
  | .human c => c
  | .ai c _ => c
  | .toolMsg _ c _ => c

/-- `SubagentMessage` (the union `SubagentToolCall | SubagentToolResult`).
The `tool_result` content is kept as `MsgContent` so that the later
`JSON.parse` of it can be evaluated; the TS field holds its string form. -/
inductive SubagentMessage where
  | tool_call (name : String) (args : Json) (id : Option String) : SubagentMessage
  | tool_result (name : String) (content : MsgContent) (toolCallId : String) : SubagentMessage
deriving Repr, BEq

/-- `extractSubagentMessages`: the loop body runs two independent
`instanceof` checks per message (an AI message contributes one entry per tool
call when `tool_calls?.length` is truthy; a tool message contributes one
`tool_result` entry, its name defaulting to `"unknown"`). -/
def extractSubagentMessages : List BaseMessage → List SubagentMessage
  | [] => []
  | msg :: rest =>
    (match msg with
     | .ai _ tcs =>
       if tcs.length != 0 then
         tcs.map (fun tc => SubagentMessage.tool_call tc.name tc.args tc.id)
       else []
     | _ => [])
    ++ (match msg with
        | .toolMsg name content toolCallId =>
          [SubagentMessage.tool_result (jsOrStr name "unknown") content toolCallId]
        | _ => [])
    ++ extractSubagentMessages rest

/-- A `SubagentMessage` as it appears (stringified) in the `manage_tasks`
response: `{type, name, args, id?}` or `{type, name, content, toolCallId}`. -/
def subagentMessageToJson : SubagentMessage → Json
  | .tool_call name args id =>
    Json.obj ([("type", Json.str "tool_call"), ("name", Json.str name), ("args", args)]
      ++ optStrField "id" id)
  | .tool_result name content toolCallId =>
    Json.obj [("type", Json.str "tool_result"), ("name", Json.str name),
              ("content", Json.str (contentToString content)),
              ("toolCallId", Json.str toolCallId)]

/-- ECMAScript `Array.prototype.slice` index normalisation. -/
def jsSliceIndex (len : Nat) (i : Int) : Nat :=
  if i < 0 then (len + i).toNat else min i.toNat len

/-- ECMAScript `Array.prototype.slice(s, e)`. -/
def jsSlice (l : List α) (s e : Int) : List α :=
  let a := jsSliceIndex l.length s
  let b := jsSliceIndex l.length e
  (l.drop a).take (b - a)

/-- The filter the `manage_tasks` __ui__ loop applies to one extracted
message: parse a tool result's content and keep `parsed.__ui__` when
`parsed && typeof parsed === "object" && parsed.__ui__` (the `catch` branch
skips contents that do not parse). -/
def uiComponentOf : SubagentMessage → Option Json
  | .tool_result _ content _ =>
    match contentParsed content with
    | none => none
    | some parsed =>
      if jsTruthy parsed && jsTypeofObject parsed then
        match parsed.getProp "__ui__" with
        | some u => if jsTruthy u then some u else none
        | none => none
      else none
  | _ => none

/-- The transcript-processing tail of `manage_tasks`
(`src/unnamed/part_002` lines 169-204): last-message extraction,
`extractSubagentMessages(result.messages.slice(1, -1))`, the __ui__
collection loop, and the final stringified object (whose `__ui__` key is
dropped when the component list is empty, since `JSON.stringify` omits
`undefined` fields).  `none` models the `TypeError` thrown on an empty
transcript (`messages[messages.length - 1].content`). -/
def manageTasksObj (messages : List BaseMessage) (lastMessage : BaseMessage) : Json :=
  let responseText := contentToString lastMessage.content
  let subagentMessages := extractSubagentMessages (jsSlice messages 1 (-1))
  let uiComponents := subagentMessages.filterMap uiComponentOf
  Json.obj
    ([("result", Json.str responseText),
      ("subagentMessages", Json.arr (subagentMessages.map subagentMessageToJson)),
      ("subagent", Json.str "tasks")]
     ++ (if uiComponents.length > 0 then [("__ui__", Json.arr uiComponents)] else []))

/-- See `manageTasksObj` for the returned object; this wrapper extracts the
last message (`none` models the `TypeError` on an empty transcript). -/
def manageTasksRespond (messages : List BaseMessage) : Option Json :=
  match messages.getLast? with
  | none => none
  | some lastMessage => some (manageTasksObj messages lastMessage)

/-- The `manage_tasks` context guard (`!tenantId || !userId` over
`runtime?.config?.configurable`). -/
def manageTasksCtxPass (runtime : Option AgentToolRuntime) : Bool :=
  let configurable := runtimeConfigurable runtime
  let tenantId := configurable.bind Configurable.tenantId
  let userId := configurable.bind Configurable.userId
  !(jsFalsy tenantId || jsFalsy userId)

/-- The supervisor `manage_tasks` tool of `src/unnamed/part_002`: on a
missing/empty tenant or user id it returns the stringified error object
without invoking the sub-agent; otherwise it processes the sub-agent
transcript (the transcript is the oracle result of `tasksAgent.invoke`). -/
def manageTasks (runtime : Option AgentToolRuntime) (messages : List BaseMessage) :
    Option Json :=
  if manageTasksCtxPass runtime then manageTasksRespond messages
  else
    some (Json.obj
      [("result", Json.str "Error: Agent context not configured. Please ensure tenantId and userId are passed."),
       ("subagentMessages", Json.arr [])])

/-! ## Convex HTTP client (`src/lib/models.ts` lines 46-114) -/

/-- The process environment read at module load
(`process.env.CONVEX_URL`, `process.env.CONVEX_DEPLOY_KEY`). -/
structure ProcessEnv where
  CONVEX_URL : Option String
  CONVEX_DEPLOY_KEY : Option String
deriving Repr, BEq

/-- The validated configuration available after module initialization. -/
structure ConvexEnv where
  url : String
  deployKey : String
deriving Repr, BEq

/-- Module initialization of the Convex client: `if (!CONVEX_URL) throw ...;
if (!CONVEX_DEPLOY_KEY) throw ...`.  An `Except.error` is the thrown error
message; requests can only be built from the `Except.ok` configuration. -/
def convexModuleLoad (env : ProcessEnv) : Except String ConvexEnv :=
  if jsFalsy env.CONVEX_URL then
    .error "CONVEX_URL environment variable is required"
  else if jsFalsy env.CONVEX_DEPLOY_KEY then
    .error "CONVEX_DEPLOY_KEY environment variable is required"
  else
    .ok { url := env.CONVEX_URL.getD "", deployKey := env.CONVEX_DEPLOY_KEY.getD "" }

/-- `"query" | "mutation"`. -/
inductive ReqType where
  | query : ReqType
  | mutation : ReqType
deriving Repr, BEq

def ReqType.toStr : ReqType → String
  | .query => "query"
  | .mutation => "mutation"

/-- An outgoing HTTP request as built by `fetch(url, {...})`. -/
structure HttpRequest where
  url : String
  method : String
  headers : List (String × String)
  body : Json
deriving Repr, BEq

/-- An HTTP response: `ok`/`status`, the text body (read on failure) and the
JSON body (read on success). -/
structure HttpResponse where
  ok : Bool
  status : Nat
  bodyText : String
  bodyJson : Json
deriving Repr, BEq

/-- The single request `convexRequest` issues: a POST to
`{CONVEX_URL}/api/{type}` with the `Authorization: Convex <deploy_key>`
header and body `{path, args, format: "json"}`. -/
def convexRequestHttp (env : ConvexEnv) (functionPath : String) (args : Json)
    (ty : ReqType) : HttpRequest :=
  { url := env.url ++ "/api/" ++ ty.toStr,
    method := "POST",
    headers := [("Content-Type", "application/json"),
                ("Authorization", "Convex " ++ env.deployKey)],
    body := Json.obj [("path", Json.str functionPath), ("args", args),
                      ("format", Json.str "json")] }

/-- JS strict equality `result.status === "error"`. -/
def statusIsError (result : Json) : Bool :=
  match result.getProp "status" with
  | some (Json.str s) => s = "error"
  | _ => false

/-- `convexRequest`: awaits one `fetch` of the request built above (the
`fetch` oracle maps the request to its response), throws on a non-ok
response, throws `Convex error: ...` when the body's `status` is `"error"`,
and otherwise returns the body's `value` (which may be absent, i.e.
`undefined`). -/
def convexRequest (env : ConvexEnv) (functionPath : String) (args : Json)
    (ty : ReqType) (fetch : HttpRequest → HttpResponse) : Except String (Option Json) :=
  let response := fetch (convexRequestHttp env functionPath args ty)
  if !response.ok then
    .error ("Convex " ++ ty.toStr ++ " failed (" ++ toString response.status ++ "): "
      ++ response.bodyText)
  else
    let result := response.bodyJson
    if statusIsError result then
      .error ("Convex error: " ++ jsTemplate (result.getProp "errorMessage"))
    else
      .ok (result.getProp "value")

/-! ## The global-context variant of `manage_tasks`
(`src/agent.ts` lines 25-55, `src/unnamed/part_003` lines 357-388) -/

/-- The `config.configurable` of the supervisor variant in `src/agent.ts`
(snake_case keys `tenant_id` / `user_id`). -/
structure SupervisorConfigurable where
  tenant_id : Option String
  user_id : Option String
deriving Repr, BEq

/-- The `RunnableConfig` argument of that variant. -/
structure RunnableConfig where
  configurable : Option SupervisorConfigurable
deriving Repr, BEq

/-- Modelled from the spec: `setAgentContext`, the setter of the
module-level mutable "current context" (a settable global holding
tenantId/userId) that `src/agent.ts` imports from an earlier variant of
`taskTools`; the version of `taskTools.ts` under `src/` no longer defines
it.  Setting replaces the stored context. -/
def setAgentContext (ctx : AgentContext) (_s : Option AgentContext) :
    Option AgentContext :=
  some ctx

/-- Modelled from the spec: `clearAgentContext`, the clearer of the same
module-level context; clearing leaves no stored context. -/
def clearAgentContext (_s : Option AgentContext) : Option AgentContext :=
  none

/-- The context guard of the `src/agent.ts` variant
(`!tenantId || !userId` over `config?.configurable?.{tenant_id,user_id}`). -/
def supervisorCtxPass (config : Option RunnableConfig) : Bool :=
  let configurable := config.bind RunnableConfig.configurable
  let tenantId := configurable.bind SupervisorConfigurable.tenant_id
  let userId := configurable.bind SupervisorConfigurable.user_id
  !(jsFalsy tenantId || jsFalsy userId)

/-- The tenant/user context the `src/agent.ts` variant sets (both strings are
truthy when this is reached). -/
def supervisorCtxOf (config : Option RunnableConfig) : AgentContext :=
  let configurable := config.bind RunnableConfig.configurable
  { tenantId := (configurable.bind SupervisorConfigurable.tenant_id).getD "",
    userId := (configurable.bind SupervisorConfigurable.user_id).getD "" }

/-- The `manage_tasks` variant of `src/agent.ts`: guards the context, sets
the module-level context, invokes the sub-agent inside `try`, and clears the
context in `finally` — on normal completion, on a rejected invocation
(`Except.error`), and on the `TypeError` raised by reading `.content` of an
empty transcript.  The pair is (returned-or-thrown result, final state of
the module-level context). -/
def manageTasksGlobalCtx (config : Option RunnableConfig)
    (invokeResult : Except Thrown (List BaseMessage))
    (s0 : Option AgentContext) :
    Except Thrown String × Option AgentContext :=
  if !(supervisorCtxPass config) then
    (.ok "Error: Agent context not configured. Please ensure tenantId and userId are passed in the request config.",
     s0)
  else
    let s1 := setAgentContext (supervisorCtxOf config) s0
    match invokeResult with
    | .error e => (.error e, clearAgentContext s1)
    | .ok messages =>
      match messages.getLast? with
      | none =>
        (.error (.err "Cannot read properties of undefined (reading content)"),
         clearAgentContext s1)
      | some lastMessage =>
        (.ok (contentToString lastMessage.content), clearAgentContext s1)

/-! ## Specification-side definitions (stated from the claims' words, to be
compared with the code-side definitions above) -/

/-- The claim's description of what one transcript message contributes to
`subagentMessages`: one entry per tool call of an AI message, one entry per
tool message, nothing otherwise. -/
def claimEntriesOfMessage : BaseMessage → List SubagentMessage
  | .ai _ tcs => tcs.map (fun tc => SubagentMessage.tool_call tc.name tc.args tc.id)
  | .toolMsg name content toolCallId =>
    [SubagentMessage.tool_result (jsOrStr name "unknown") content toolCallId]
  | .human _ => []

/-- The claim's `subagentMessages`: the contributions of the transcript with
its first and last messages excluded, in transcript order. -/
def claimSubagentEntries (transcript : List BaseMessage) : List SubagentMessage :=
  ((transcript.drop 1).dropLast).flatMap claimEntriesOfMessage

/-- The claim's notion of the `__ui__` payload a tool result carries: the
value of the `__ui__` key of its successfully parsed content. -/
def claimUiPayloadOf : SubagentMessage → Option Json
  | .tool_result _ content _ =>
    (contentParsed content).bind (fun parsed => parsed.getProp "__ui__")
  | _ => none

/-- The claim's `__ui__` list: every `__ui__` payload carried by the tool
results among `claimSubagentEntries`. -/
def claimUiPayloads (transcript : List BaseMessage) : List Json :=
  (claimSubagentEntries transcript).filterMap claimUiPayloadOf

/-- The claim's well-formedness of a `__ui__` value: an object with a `name`
string and a `props` object. -/
def uiWellFormed : Json → Bool
  | .obj fields =>
    (match Json.lookupField fields "name" with
     | some (Json.str _) => true
     | _ => false)
    && (match Json.lookupField fields "props" with
        | some (Json.obj _) => true
        | _ => false)
  | _ => false

/-- The claim's well-formedness of a tool output: a plain string is fine;
a JSON return must be an object with a `text` field whose `__ui__` field,
when present, is well formed. -/
def outputWellFormed : ToolOutput → Bool
  | .plain _ => true
  | .json (Json.obj fields) =>
    (Json.lookupField fields "text").isSome
    && (match Json.lookupField fields "__ui__" with
        | none => true
        | some u => uiWellFormed u)
  | .json _ => false

/-! ## Concrete fixtures used by the witness theorems -/

/-- A runtime carrying a fully configured context. -/
def wRuntime : Option AgentToolRuntime :=
  some ⟨some ⟨some ⟨some "tenant-1", some "user-1", none⟩⟩⟩

/-- The context `wRuntime` yields. -/
def wCtx : AgentContext := ⟨"tenant-1", "user-1"⟩

/-- A runtime whose tenant id is present but empty. -/
def wRuntimeEmptyTenant : Option AgentToolRuntime :=
  some ⟨some ⟨some ⟨some "", some "user-1", none⟩⟩⟩

/-- A sample task. -/
def wTask : Task :=
  ⟨"task-1", 0, "tenant-1", "Sample task", none, "todo", "feature", "medium",
   none, none, none⟩

/-- A backend oracle whose every call rejects with `Error("boom")`. -/
def cvxFail : Convex :=
  ⟨fun _ => .error (.err "boom"), fun _ => .error (.err "boom"),
   fun _ => .error (.err "boom"), fun _ => .error (.err "boom"),
   fun _ => .error (.err "boom"), fun _ => .error (.err "boom")⟩

/-- A backend oracle that finds `wTask` everywhere and succeeds on every
mutation. -/
def cvxOne : Convex :=
  ⟨fun _ => .ok [wTask], fun _ => .ok (some wTask), fun _ => .ok "task-1",
   fun _ => .ok (), fun _ => .ok (), fun _ => .ok [wTask]⟩

/-- A parsed tool-result content carrying a TaskTable `__ui__` payload. -/
def wUiPayload : Json :=
  Json.obj [("name", Json.str "TaskTable"), ("props", Json.obj [])]

/-- A transcript: user request, AI tool call, tool result carrying a
`__ui__` payload, final AI answer. -/
def wTranscript : List BaseMessage :=
  [BaseMessage.human (MsgContent.str "show my tasks" none),
   BaseMessage.ai (MsgContent.str "" none)
     [⟨"list_tasks", Json.obj [], some "call-1"⟩],
   BaseMessage.toolMsg (some "list_tasks")
     (MsgContent.str "ignored-raw"
       (some (Json.obj [("text", Json.str "Found 1 task(s)."), ("__ui__", wUiPayload)])))
     "call-1",
   BaseMessage.ai (MsgContent.str "You have 1 task." none) []]

/-- A fetch oracle answering with a successful Convex envelope. -/
def wFetchOk : HttpRequest → HttpResponse :=
  fun _ => ⟨true, 200, "", Json.obj [("status", Json.str "success"), ("value", Json.str "v")]⟩

/-! ## Helper lemmas -/

/-- The empty string is empty (in simp-normal form). -/
theorem emptyStr_isEmpty : "".isEmpty = true := by decide

/-- Every task tool answers the context-missing error, with no backend
call, whenever `getContextFromRuntime` yields `null`. -/
theorem tools_ctx_error (runtime : Option AgentToolRuntime) (cvx : Convex)
    (formId : String) (gin : GetTaskInput) (sin : SearchTasksInput)
    (cin : CreateTaskInput) (uin : UpdateTaskInput) (din : DeleteTaskInput)
    (h : getContextFromRuntime runtime = none) :
    listTasks runtime cvx = (.plain ctxErrorMsg, [])
    ∧ getTask gin runtime cvx = (.plain ctxErrorMsg, [])
    ∧ searchTasks sin runtime cvx = (.plain ctxErrorMsg, [])
    ∧ createTask cin runtime cvx = (.plain ctxErrorMsg, [])
    ∧ updateTask uin runtime cvx = (.plain ctxErrorMsg, [])
    ∧ deleteTask din runtime cvx = (.plain ctxErrorMsg, [])
    ∧ proposeTask cin formId runtime = (.plain ctxErrorMsg, [])
    ∧ proposeTaskUpdate uin formId runtime cvx = (.plain ctxErrorMsg, [])
    ∧ proposeTaskDelete din formId runtime cvx = (.plain ctxErrorMsg, []) := by
  refine ⟨?_, ?_, ?_, ?_, ?_, ?_, ?_, ?_, ?_⟩ <;>
    simp [listTasks, getTask, searchTasks, createTask, updateTask, deleteTask,
      proposeTask, proposeTaskUpdate, proposeTaskDelete, h]

/-! ## Claim theorems -/

/-- C4: for every task tool and every input, when tenantId or userId is
absent from the runtime context, the tool returns the terminal user-visible
string "Error: Agent context not configured. Ensure tenantId and userId are
passed in context." (`ctxErrorMsg`) without invoking the remote backend
(empty call trace) and without throwing (the result is an ordinary return
value). -/
theorem taskTools_missing_context (runtime : Option AgentToolRuntime)
    (cvx : Convex) (formId : String) (gin : GetTaskInput)
    (sin : SearchTasksInput) (cin : CreateTaskInput) (uin : UpdateTaskInput)
    (din : DeleteTaskInput)
    (h : (runtimeConfigurable runtime).bind Configurable.tenantId = none
       ∨ (runtimeConfigurable runtime).bind Configurable.userId = none) :
    listTasks runtime cvx = (.plain ctxErrorMsg, [])
    ∧ getTask gin runtime cvx = (.plain ctxErrorMsg, [])
    ∧ searchTasks sin runtime cvx = (.plain ctxErrorMsg, [])
    ∧ createTask cin runtime cvx = (.plain ctxErrorMsg, [])
    ∧ updateTask uin runtime cvx = (.plain ctxErrorMsg, [])
    ∧ deleteTask din runtime cvx = (.plain ctxErrorMsg, [])
    ∧ proposeTask cin formId runtime = (.plain ctxErrorMsg, [])
    ∧ proposeTaskUpdate uin formId runtime cvx = (.plain ctxErrorMsg, [])
    ∧ proposeTaskDelete din formId runtime cvx = (.plain ctxErrorMsg, []) := by
  have hnone : getContextFromRuntime runtime = none := by
    rcases h with h | h <;> simp [getContextFromRuntime, jsFalsy, h]
  exact tools_ctx_error runtime cvx formId gin sin cin uin din hnone

/-- Witness for C4: with no runtime at all, `list_tasks` answers the
context error and performs no backend call. -/
theorem taskTools_missing_context_witness :
    listTasks none cvxOne = (.plain ctxErrorMsg, []) :=
  (taskTools_missing_context none cvxOne "form-1" ⟨"task-1"⟩ ⟨"q"⟩
    ⟨"T", none, none, none, none⟩ ⟨"task-1", none, none, none, none, none⟩
    ⟨"task-1"⟩ (Or.inl rfl)).1

/-- C10: a tenantId or userId that is present in the runtime context but
equal to the empty string is treated exactly like an absent one: the falsy
check in `getContextFromRuntime` returns `null`, every task tool returns
the context-not-configured error without any backend call, and the
supervisor `manage_tasks` guard likewise rejects the context. -/
theorem emptyString_context_rejected (c : Configurable) (cvx : Convex)
    (formId : String) (gin : GetTaskInput) (sin : SearchTasksInput)
    (cin : CreateTaskInput) (uin : UpdateTaskInput) (din : DeleteTaskInput)
    (messages : List BaseMessage)
    (h : c.tenantId = some "" ∨ c.userId = some "") :
    getContextFromRuntime (some ⟨some ⟨some c⟩⟩) = none
    ∧ listTasks (some ⟨some ⟨some c⟩⟩) cvx = (.plain ctxErrorMsg, [])
    ∧ getTask gin (some ⟨some ⟨some c⟩⟩) cvx = (.plain ctxErrorMsg, [])
    ∧ searchTasks sin (some ⟨some ⟨some c⟩⟩) cvx = (.plain ctxErrorMsg, [])
    ∧ createTask cin (some ⟨some ⟨some c⟩⟩) cvx = (.plain ctxErrorMsg, [])
    ∧ updateTask uin (some ⟨some ⟨some c⟩⟩) cvx = (.plain ctxErrorMsg, [])
    ∧ deleteTask din (some ⟨some ⟨some c⟩⟩) cvx = (.plain ctxErrorMsg, [])
    ∧ proposeTask cin formId (some ⟨some ⟨some c⟩⟩) = (.plain ctxErrorMsg, [])
    ∧ proposeTaskUpdate uin formId (some ⟨some ⟨some c⟩⟩) cvx = (.plain ctxErrorMsg, [])
    ∧ proposeTaskDelete din formId (some ⟨some ⟨some c⟩⟩) cvx = (.plain ctxErrorMsg, [])
    ∧ manageTasksCtxPass (some ⟨some ⟨some c⟩⟩) = false
    ∧ manageTasks (some ⟨some ⟨some c⟩⟩) messages
        = some (Json.obj
            [("result", Json.str "Error: Agent context not configured. Please ensure tenantId and userId are passed."),
             ("subagentMessages", Json.arr [])]) := by
  have hnone : getContextFromRuntime (some ⟨some ⟨some c⟩⟩) = none := by
    rcases h with h | h <;>
      simp [getContextFromRuntime, runtimeConfigurable, jsFalsy, h, emptyStr_isEmpty]
  have hpass : manageTasksCtxPass (some ⟨some ⟨some c⟩⟩) = false := by
    rcases h with h | h <;>
      simp [manageTasksCtxPass, runtimeConfigurable, jsFalsy, h, emptyStr_isEmpty]
  obtain ⟨h1, h2, h3, h4, h5, h6, h7, h8, h9⟩ :=
    tools_ctx_error (some ⟨some ⟨some c⟩⟩) cvx formId gin sin cin uin din hnone
  exact ⟨hnone, h1, h2, h3, h4, h5, h6, h7, h8, h9, hpass,
    by simp [manageTasks, hpass]⟩

/-- Witness for C10: a runtime whose tenant id is the empty string is
rejected exactly like a missing one. -/
theorem emptyString_context_rejected_witness :
    getContextFromRuntime wRuntimeEmptyTenant = none
    ∧ listTasks wRuntimeEmptyTenant cvxOne = (.plain ctxErrorMsg, []) := by
  obtain ⟨h1, h2, _⟩ :=
    emptyString_context_rejected ⟨some "", some "user-1", none⟩ cvxOne "form-1"
      ⟨"task-1"⟩ ⟨"q"⟩ ⟨"T", none, none, none, none⟩
      ⟨"task-1", none, none, none, none, none⟩ ⟨"task-1"⟩ [] (Or.inl rfl)
  exact ⟨h1, h2⟩

/-- C2: for every task tool that can return a JSON envelope (list_tasks,
get_task, search_tasks, create_task and the propose tools) and every input,
whenever the returned value is a JSON object it contains a `text` field, and
whenever it contains a `__ui__` field that field is an object with a `name`
string and a `props` object. -/
theorem taskTools_output_wellFormed (runtime : Option AgentToolRuntime)
    (cvx : Convex) (formId : String) (gin : GetTaskInput)
    (sin : SearchTasksInput) (cin : CreateTaskInput) (uin : UpdateTaskInput)
    (din : DeleteTaskInput) :
    outputWellFormed (listTasks runtime cvx).1 = true
    ∧ outputWellFormed (getTask gin runtime cvx).1 = true
    ∧ outputWellFormed (searchTasks sin runtime cvx).1 = true
    ∧ outputWellFormed (createTask cin runtime cvx).1 = true
    ∧ outputWellFormed (proposeTask cin formId runtime).1 = true
    ∧ outputWellFormed (proposeTaskUpdate uin formId runtime cvx).1 = true
    ∧ outputWellFormed (proposeTaskDelete din formId runtime cvx).1 = true := by
  refine ⟨?_, ?_, ?_, ?_, ?_, ?_, ?_⟩ <;>
    · simp only [listTasks, getTask, searchTasks, createTask, proposeTask,
        proposeTaskUpdate, proposeTaskDelete]
      repeat' split
      all_goals simp [outputWellFormed, uiWellFormed, Json.lookupField]

/-- C3 counterexample: with `status` omitted, the argument object
`create_task` forwards to the backend carries status `"todo"`, not the
documented `"backlog"`. -/
theorem createTask_backlog_default_counterexample :
    (createTaskSentArgs ⟨"tenant-1", "user-1"⟩
        ⟨"Sample task", none, none, none, none⟩).status = "todo"
    ∧ ("todo" : String) ≠ "backlog" :=
  ⟨rfl, by decide⟩

/-- C3 (amended): when status, label or priority is omitted from a
create_task input, the arguments forwarded to the backend substitute
status `"todo"` (not the `"backlog"` the schema description documents),
label `"feature"` and priority `"medium"`; the earlier variant
(`src/unnamed/part_001`) substituted `"backlog"` as documented.  The tool
forwards exactly the `createTaskSentArgs` object. -/
theorem createTask_default_substitution (ctx : AgentContext)
    (cin : CreateTaskInput) (runtime : Option AgentToolRuntime) (cvx : Convex)
    (hctx : getContextFromRuntime runtime = some ctx) :
    (cin.status = none → (createTaskSentArgs ctx cin).status = "todo"
      ∧ (createTaskSentArgsV1 ctx cin).status = "backlog")
    ∧ (cin.label = none → (createTaskSentArgs ctx cin).label = "feature"
      ∧ (createTaskSentArgsV1 ctx cin).label = "feature")
    ∧ (cin.priority = none → (createTaskSentArgs ctx cin).priority = "medium"
      ∧ (createTaskSentArgsV1 ctx cin).priority = "medium")
    ∧ (createTask cin runtime cvx).2 = [ConvexCall.create (createTaskSentArgs ctx cin)] := by
  refine ⟨?_, ?_, ?_, ?_⟩
  · intro h; simp [createTaskSentArgs, createTaskSentArgsV1, jsOrStr, h]
  · intro h; simp [createTaskSentArgs, createTaskSentArgsV1, jsOrStr, h]
  · intro h; simp [createTaskSentArgs, createTaskSentArgsV1, jsOrStr, h]
  · rcases hcr : cvx.create (createTaskSentArgs ctx cin) with e | taskId <;>
      simp [createTask, hctx, hcr]

/-- Witness for C3's amended claim at a concrete omitted-fields input. -/
theorem createTask_default_substitution_witness :
    (createTaskSentArgs wCtx ⟨"Sample task", none, none, none, none⟩).status = "todo"
    ∧ (createTaskSentArgsV1 wCtx ⟨"Sample task", none, none, none, none⟩).status = "backlog" :=
  (createTask_default_substitution wCtx ⟨"Sample task", none, none, none, none⟩
    wRuntime cvxOne rfl).1 rfl

/-- C5: for every task tool whose body awaits a backend call, when that call
rejects the tool does not propagate the exception (it returns an ordinary
string) prefixed `"Error"`. -/
theorem taskTools_backend_failure_caught (runtime : Option AgentToolRuntime)
    (cvx : Convex) (ctx : AgentContext) (e : Thrown)
    (hctx : getContextFromRuntime runtime = some ctx) :
    (cvx.list ⟨ctx.tenantId, ctx.userId⟩ = .error e →
      (listTasks runtime cvx).1 = .plain ("Error" ++ (" listing tasks: " ++ thrownMsg e)))
    ∧ (∀ gin : GetTaskInput, cvx.get ⟨ctx.tenantId, ctx.userId, gin.id⟩ = .error e →
      (getTask gin runtime cvx).1 = .plain ("Error" ++ (" getting task: " ++ thrownMsg e)))
    ∧ (∀ sin : SearchTasksInput, cvx.search ⟨ctx.tenantId, ctx.userId, sin.query⟩ = .error e →
      (searchTasks sin runtime cvx).1 = .plain ("Error" ++ (" searching tasks: " ++ thrownMsg e)))
    ∧ (∀ cin : CreateTaskInput, cvx.create (createTaskSentArgs ctx cin) = .error e →
      (createTask cin runtime cvx).1 = .plain ("Error" ++ (" creating task: " ++ thrownMsg e)))
    ∧ (∀ uin : UpdateTaskInput,
        cvx.update ⟨ctx.tenantId, ctx.userId, uin.id, uin.title, uin.description,
          uin.status, uin.label, uin.priority⟩ = .error e →
      (updateTask uin runtime cvx).1 = .plain ("Error" ++ (" updating task: " ++ thrownMsg e)))
    ∧ (∀ din : DeleteTaskInput, cvx.remove ⟨ctx.tenantId, ctx.userId, din.id⟩ = .error e →
      (deleteTask din runtime cvx).1 = .plain ("Error" ++ (" deleting task: " ++ thrownMsg e)))
    ∧ (∀ (uin : UpdateTaskInput) (formId : String),
        cvx.get ⟨ctx.tenantId, ctx.userId, uin.id⟩ = .error e →
      (proposeTaskUpdate uin formId runtime cvx).1
        = .plain ("Error" ++ (" getting task for update: " ++ thrownMsg e)))
    ∧ (∀ (din : DeleteTaskInput) (formId : String),
        cvx.get ⟨ctx.tenantId, ctx.userId, din.id⟩ = .error e →
      (proposeTaskDelete din formId runtime cvx).1
        = .plain ("Error" ++ (" getting task for deletion: " ++ thrownMsg e))) := by
  refine ⟨?_, ?_, ?_, ?_, ?_, ?_, ?_, ?_⟩
  · intro h
    simp only [listTasks, hctx, h]
    rw [← String.append_assoc]
    rfl
  · intro gin h
    simp only [getTask, hctx, h]
    rw [← String.append_assoc]
    rfl
  · intro sin h
    simp only [searchTasks, hctx, h]
    rw [← String.append_assoc]
    rfl
  · intro cin h
    simp only [createTask, hctx, h]
    rw [← String.append_assoc]
    rfl
  · intro uin h
    simp only [updateTask, hctx, h]
    rw [← String.append_assoc]
    rfl
  · intro din h
    simp only [deleteTask, hctx, h]
    rw [← String.append_assoc]
    rfl
  · intro uin formId h
    simp only [proposeTaskUpdate, hctx, h]
    rw [← String.append_assoc]
    rfl
  · intro din formId h
    simp only [proposeTaskDelete, hctx, h]
    rw [← String.append_assoc]
    rfl

/-- Witness for C5: against an always-rejecting backend, `list_tasks`
returns the caught error string. -/
theorem taskTools_backend_failure_caught_witness :
    (listTasks wRuntime cvxFail).1 = .plain ("Error" ++ (" listing tasks: " ++ thrownMsg (.err "boom"))) :=
  (taskTools_backend_failure_caught wRuntime cvxFail wCtx (.err "boom") rfl).1 rfl

/-- C7: if CONVEX_URL or CONVEX_DEPLOY_KEY is unset, module initialization
of the Convex client throws (and no `ConvexEnv`, from which alone requests
are built, is produced). -/
theorem convex_missing_env_fails_fast (env : ProcessEnv)
    (h : env.CONVEX_URL = none ∨ env.CONVEX_DEPLOY_KEY = none) :
    (∃ msg, convexModuleLoad env = .error msg)
    ∧ ∀ cfg, convexModuleLoad env ≠ .ok cfg := by
  have hmain : ∃ msg, convexModuleLoad env = .error msg := by
    rcases h with h | h
    · refine ⟨"CONVEX_URL environment variable is required", ?_⟩
      simp [convexModuleLoad, h, jsFalsy]
    · unfold convexModuleLoad
      split
      · exact ⟨_, rfl⟩
      · rw [if_pos (by simp [h, jsFalsy])]
        exact ⟨_, rfl⟩
  obtain ⟨msg, hmsg⟩ := hmain
  exact ⟨⟨msg, hmsg⟩, fun cfg hc => by rw [hmsg] at hc; cases hc⟩

/-- Witness for C7 with CONVEX_URL unset. -/
theorem convex_missing_env_fails_fast_witness :
    ∃ msg, convexModuleLoad ⟨none, some "dev:key"⟩ = .error msg :=
  (convex_missing_env_fails_fast ⟨none, some "dev:key"⟩ (Or.inl rfl)).1

/-- C6: `convexRequest` issues its single POST to `{CONVEX_URL}/api/{type}`
with the `Authorization: Convex <deploy_key>` header and body
`{path, args, format: "json"}`, and it throws exactly when the response is
not ok or the body's status is "error" (including the errorMessage then);
otherwise it returns the body's `value`. -/
theorem convexRequest_contract (env : ConvexEnv) (functionPath : String)
    (args : Json) (ty : ReqType) (fetch : HttpRequest → HttpResponse) :
    (convexRequestHttp env functionPath args ty).method = "POST"
    ∧ (convexRequestHttp env functionPath args ty).url = env.url ++ "/api/" ++ ty.toStr
    ∧ (convexRequestHttp env functionPath args ty).headers
        = [("Content-Type", "application/json"),
           ("Authorization", "Convex " ++ env.deployKey)]
    ∧ (convexRequestHttp env functionPath args ty).body
        = Json.obj [("path", Json.str functionPath), ("args", args),
                    ("format", Json.str "json")]
    ∧ ((∃ msg, convexRequest env functionPath args ty fetch = .error msg)
        ↔ ((fetch (convexRequestHttp env functionPath args ty)).ok = false
           ∨ statusIsError (fetch (convexRequestHttp env functionPath args ty)).bodyJson = true))
    ∧ ((fetch (convexRequestHttp env functionPath args ty)).ok = true →
        statusIsError (fetch (convexRequestHttp env functionPath args ty)).bodyJson = true →
        convexRequest env functionPath args ty fetch
          = .error ("Convex error: "
              ++ jsTemplate ((fetch (convexRequestHttp env functionPath args ty)).bodyJson.getProp "errorMessage")))
    ∧ ((fetch (convexRequestHttp env functionPath args ty)).ok = true →
        statusIsError (fetch (convexRequestHttp env functionPath args ty)).bodyJson = false →
        convexRequest env functionPath args ty fetch
          = .ok ((fetch (convexRequestHttp env functionPath args ty)).bodyJson.getProp "value")) := by
  refine ⟨rfl, rfl, rfl, rfl, ?_, ?_, ?_⟩
  · constructor
    · rintro ⟨msg, hmsg⟩
      by_cases hok : (fetch (convexRequestHttp env functionPath args ty)).ok = true
      · right
        by_cases hse : statusIsError (fetch (convexRequestHttp env functionPath args ty)).bodyJson = true
        · exact hse
        · exfalso
          simp [convexRequest, hok, hse] at hmsg
      · left
        simpa using hok
    · rintro (hok | hse)
      · rcases hX : convexRequest env functionPath args ty fetch with msg | val
        · exact ⟨msg, rfl⟩
        · simp [convexRequest, hok] at hX
      · rcases hX : convexRequest env functionPath args ty fetch with msg | val
        · exact ⟨msg, rfl⟩
        · cases hok2 : (fetch (convexRequestHttp env functionPath args ty)).ok <;>
            simp [convexRequest, hok2, hse] at hX
  · intro hok hse
    simp [convexRequest, hok, hse]
  · intro hok hse
    simp [convexRequest, hok, hse]

/-- Witness for C6: a successful round trip returns the envelope's value. -/
theorem convexRequest_contract_witness :
    convexRequest ⟨"https://x.convex.cloud", "dev:key"⟩ "agent/tasks:list"
        (Json.obj []) ReqType.query wFetchOk
      = .ok (some (Json.str "v")) := by
  have h := (convexRequest_contract ⟨"https://x.convex.cloud", "dev:key"⟩
    "agent/tasks:list" (Json.obj []) ReqType.query wFetchOk).2.2.2.2.2.2
  exact h rfl rfl

/-- C8: in the `src/agent.ts` variant of `manage_tasks` (which uses the
settable/clearable module-level agent context), whenever the context guard
passes, the context set before the sub-agent invocation is cleared when the
tool returns — on normal completion, on a rejected sub-agent invocation, and
on the empty-transcript `TypeError` — so no tenantId/userId state survives
the turn; when the guard rejects, the stored context is left untouched (and
nothing was set). -/
theorem manageTasks_clears_global_context (config : Option RunnableConfig)
    (invokeResult : Except Thrown (List BaseMessage))
    (s0 : Option AgentContext) :
    (manageTasksGlobalCtx config invokeResult s0).2
      = (if supervisorCtxPass config then none else s0) := by
  cases hp : supervisorCtxPass config with
  | false => simp [manageTasksGlobalCtx, hp]
  | true =>
    cases invokeResult with
    | error e => simp [manageTasksGlobalCtx, hp, clearAgentContext]
    | ok messages =>
      cases hl : messages.getLast? <;>
        simp [manageTasksGlobalCtx, hp, hl, clearAgentContext]

/-- C9: with context present and a successful backend search, search_tasks
returns the plain no-match string on an empty result, a TaskCard envelope on
a unique match, and a TaskTable envelope carrying the full list on two or
more matches. -/
theorem searchTasks_result_branches (sin : SearchTasksInput)
    (runtime : Option AgentToolRuntime) (cvx : Convex) (ctx : AgentContext)
    (tasks : List Task)
    (hctx : getContextFromRuntime runtime = some ctx)
    (hs : cvx.search ⟨ctx.tenantId, ctx.userId, sin.query⟩ = .ok tasks) :
    (tasks = [] →
      (searchTasks sin runtime cvx).1
        = .plain ("No tasks found matching \"" ++ sin.query ++ "\"."))
    ∧ (∀ t, tasks = [t] →
      (searchTasks sin runtime cvx).1
        = .json (Json.obj
            [("text", Json.str ("Found task \"" ++ t.title ++ "\".")),
             ("__ui__", Json.obj
               [("name", Json.str "TaskCard"),
                ("props", Json.obj [("task", taskToJson t)])])]))
    ∧ (2 ≤ tasks.length →
      (searchTasks sin runtime cvx).1
        = .json (Json.obj
            [("text", Json.str ("Found " ++ toString tasks.length
                ++ " tasks matching \"" ++ sin.query ++ "\".")),
             ("__ui__", Json.obj
               [("name", Json.str "TaskTable"),
                ("props", Json.obj [("tasks", Json.arr (tasks.map taskToJson))])])])) := by
  refine ⟨?_, ?_, ?_⟩
  · intro h
    subst h
    simp [searchTasks, hctx, hs]
  · intro t h
    subst h
    simp [searchTasks, hctx, hs]
  · intro h
    match tasks, h with
    | t1 :: t2 :: rest, _ =>
      simp [searchTasks, hctx, hs]

/-- Witness for C9: a unique search hit produces the TaskCard envelope. -/
theorem searchTasks_result_branches_witness :
    (searchTasks ⟨"Sample"⟩ wRuntime cvxOne).1
      = .json (Json.obj
          [("text", Json.str ("Found task \"" ++ wTask.title ++ "\".")),
           ("__ui__", Json.obj
             [("name", Json.str "TaskCard"),
              ("props", Json.obj [("task", taskToJson wTask)])])]) :=
  ((searchTasks_result_branches ⟨"Sample"⟩ wRuntime cvxOne wCtx [wTask]
    rfl rfl).2.1) wTask rfl

/-- JS `slice(1, -1)` drops exactly the first and last elements. -/
theorem jsSlice_one_negone (l : List α) :
    jsSlice l 1 (-1) = (l.drop 1).dropLast := by
  cases l with
  | nil => rfl
  | cons x xs =>
    have h1 : jsSliceIndex (x :: xs).length 1 = 1 := by
      simp [jsSliceIndex]
    have h2 : jsSliceIndex (x :: xs).length (-1) = xs.length := by
      simp [jsSliceIndex]
    simp only [jsSlice, h1, h2, List.drop_one, List.tail_cons]
    rw [List.dropLast_eq_take]

/-- The extraction loop computes, message by message, the entries the claim
describes. -/
theorem extractSubagentMessages_eq_flatMap (l : List BaseMessage) :
    extractSubagentMessages l = l.flatMap claimEntriesOfMessage := by
  induction l with
  | nil => rfl
  | cons msg rest ih =>
    cases msg with
    | human c => simp [extractSubagentMessages, claimEntriesOfMessage, ih]
    | ai c tcs =>
      cases tcs with
      | nil => simp [extractSubagentMessages, claimEntriesOfMessage, ih]
      | cons t ts => simp [extractSubagentMessages, claimEntriesOfMessage, ih]
    | toolMsg n c tid => simp [extractSubagentMessages, claimEntriesOfMessage, ih]

/-- When every `__ui__` payload carried by the tool results is truthy (as
every payload the task tools emit is: they are `{name, props}` objects), the
truthiness-guarded collection of the code equals the claim's payload list. -/
theorem uiComponents_eq_claim (msgs : List SubagentMessage)
    (h : ∀ u ∈ msgs.filterMap claimUiPayloadOf, jsTruthy u = true) :
    msgs.filterMap uiComponentOf = msgs.filterMap claimUiPayloadOf := by
  apply List.filterMap_congr
  intro m hm
  cases m with
  | tool_call n a i => rfl
  | tool_result n c tid =>
    cases hp : contentParsed c with
    | none => simp [uiComponentOf, claimUiPayloadOf, hp]
    | some parsed =>
      cases hu : parsed.getProp "__ui__" with
      | none => simp [uiComponentOf, claimUiPayloadOf, hp, hu]
      | some u =>
        have hmem : u ∈ msgs.filterMap claimUiPayloadOf :=
          List.mem_filterMap.mpr ⟨_, hm, by simp [claimUiPayloadOf, hp, hu]⟩
        have htru := h u hmem
        cases parsed with
        | obj fs =>
          simp [uiComponentOf, claimUiPayloadOf, hp, hu, jsTruthy, jsTypeofObject]
          exact htru
        | null => simp [Json.getProp] at hu
        | bool b => simp [Json.getProp] at hu
        | num k => simp [Json.getProp] at hu
        | str s => simp [Json.getProp] at hu
        | arr xs => simp [Json.getProp] at hu

/-- C1: for a sub-agent transcript processed by `manage_tasks` (context
present, non-empty transcript, and every carried `__ui__` payload truthy, as
the task tools' payloads are), the returned JSON object holds the final
message as `result`, exactly the claim's tool-call/tool-result entries of
the first-and-last-excluded transcript in order as `subagentMessages`, and
every carried `__ui__` payload as `__ui__` — a key that is omitted when no
tool result carries one. -/
theorem manageTasks_aggregates_transcript (runtime : Option AgentToolRuntime)
    (messages : List BaseMessage) (lastMsg : BaseMessage)
    (hctx : manageTasksCtxPass runtime = true)
    (hlast : messages.getLast? = some lastMsg)
    (hui : ∀ u ∈ claimUiPayloads messages, jsTruthy u = true) :
    ∃ o, manageTasks runtime messages = some o
      ∧ o.getProp "result" = some (Json.str (contentToString lastMsg.content))
      ∧ o.getProp "subagentMessages"
          = some (Json.arr ((claimSubagentEntries messages).map subagentMessageToJson))
      ∧ o.getProp "__ui__"
          = (match claimUiPayloads messages with
             | [] => none
             | us => some (Json.arr us)) := by
  have hs : extractSubagentMessages (jsSlice messages 1 (-1))
      = claimSubagentEntries messages := by
    rw [jsSlice_one_negone]
    exact extractSubagentMessages_eq_flatMap _
  have hu2 : (claimSubagentEntries messages).filterMap uiComponentOf
      = claimUiPayloads messages :=
    uiComponents_eq_claim _ hui
  have hobj : manageTasksObj messages lastMsg
      = Json.obj
          ([("result", Json.str (contentToString lastMsg.content)),
            ("subagentMessages",
             Json.arr ((claimSubagentEntries messages).map subagentMessageToJson)),
            ("subagent", Json.str "tasks")]
           ++ (if (claimUiPayloads messages).length > 0
               then [("__ui__", Json.arr (claimUiPayloads messages))] else [])) := by
    simp only [manageTasksObj, hs, hu2]
  have h0 : manageTasks runtime messages = some (manageTasksObj messages lastMsg) := by
    unfold manageTasks manageTasksRespond
    rw [if_pos hctx, hlast]
  rw [hobj] at h0
  refine ⟨_, h0, ?_, ?_, ?_⟩
  · simp [Json.getProp, Json.lookupField]
  · simp [Json.getProp, Json.lookupField]
  · cases hc : claimUiPayloads messages with
    | nil => simp [Json.getProp, Json.lookupField, hc]
    | cons u us => simp [Json.getProp, Json.lookupField, hc]

/-- Witness for C1 on a concrete four-message transcript whose tool result
carries one `__ui__` payload. -/
theorem manageTasks_aggregates_transcript_witness :
    ∃ o, manageTasks wRuntime wTranscript = some o
      ∧ o.getProp "result" = some (Json.str "You have 1 task.")
      ∧ o.getProp "__ui__" = some (Json.arr [wUiPayload]) := by
  have hupay : claimUiPayloads wTranscript = [wUiPayload] := by rfl
  obtain ⟨o, h1, h2, h3, h4⟩ :=
    manageTasks_aggregates_transcript wRuntime wTranscript
      (BaseMessage.ai (MsgContent.str "You have 1 task." none) [])
      rfl rfl
      (by
        intro u hu
        rw [hupay] at hu
        rw [List.mem_singleton] at hu
        subst hu
        rfl)
  refine ⟨o, h1, h2, ?_⟩
  rw [h4, hupay]

end Agents
